import Mathlib

/-!
Shallow embedding of `src/amp_monitor_fixed.py`, a single-file polling
monitor: it fetches a web page, derives a FULL/OPEN status from the page
text by keyword search, tracks the previous status across polling cycles,
and posts Discord alerts on status transitions.

Modelling conventions:
* Page text and response bodies are lists of Unicode code points
  (`List Nat`); `codes` converts a Lean string literal.  `upperCode` is the
  ASCII fragment of Python's `str.upper` — the only keywords searched are
  ASCII, so this is the relevant fragment.
* A network attempt (`requests.get` / `requests.post`) is abstracted by its
  outcome `HttpOutcome`: either a returned response (status code and body
  text) or a raised exception (carrying its message).  A function under
  test receives the outcome of each attempt it may make as a parameter.
* BeautifulSoup's `get_text` (markup stripping) is an external library
  call; the body text in `HttpOutcome.response` stands for the already
  rendered text it produces.
* `requests.Response.raise_for_status` raises `HTTPError` exactly for
  status codes 400–599 (4xx client errors and 5xx server errors); this
  documented library behaviour is embedded in `raise_for_status_raises`.
* Wall-clock time, `time.sleep` and `print` logging are not modelled; the
  alert messages built in the loop differ only by timestamps, so an alert
  is represented by which transition fired (`Alert`).
-/

namespace AmpMonitor

/-- Code points of a string, the model of Python text. -/
def codes (s : String) : List Nat := s.data.map Char.toNat

/-- ASCII fragment of Python's `str.upper`: maps `a`–`z` (97–122) to
`A`–`Z` (65–90) and leaves every other code point unchanged. -/
def upperCode (n : Nat) : Nat := if 97 ≤ n ∧ n ≤ 122 then n - 32 else n

/-- Holds when the second list is an initial segment of the first
(helper for Python's substring containment `p in t`). -/
def startsWithC : List Nat → List Nat → Bool
  | _, [] => true
  | [], _ :: _ => false
  | a :: as, b :: bs => a == b && startsWithC as bs

/-- Python's substring containment `pat in text`. -/
def containsC : List Nat → List Nat → Bool
  | [], pat => startsWithC [] pat
  | a :: rest, pat => startsWithC (a :: rest) pat || containsC rest pat

/-- Result of the StatusExtractor part of `check_website`
(lines 68–73 and the `page_text[:300]` snippet of line 79). -/
structure Extracted where
  is_full : Bool
  is_open : Bool
  snippet : List Nat
deriving DecidableEq, Repr

/-- Lines 68–79 of `check_website`: upper-case the page text, search for
the keywords, keep the first 300 characters as a diagnostic snippet. -/
def extractC (page : List Nat) : Extracted :=
  let up := page.map upperCode
  { is_full := containsC up (codes "FULL")
    is_open := containsC up (codes "OPEN") || containsC up (codes "AVAILABLE")
        || containsC up (codes "ACCEPTING")
    snippet := up.take 300 }

/-- Outcome of one network attempt: the response (status code, rendered
body text) or a raised exception with its message. -/
inductive HttpOutcome where
  | response (status : Nat) (text : List Nat)
  | exn (message : String)
deriving DecidableEq, Repr

/-- Which request attempts a call made, in order. -/
inductive AttemptKind where
  | verified
  | insecure
deriving DecidableEq, Repr

/-- The inner `try`/`except` shared by `send_discord_alert` (lines 34–39)
and `check_website` (lines 60–63): one attempt with certificate
verification, and on ANY exception (a bare `except:`) exactly one further
attempt with `verify=False`; an exception from the fallback propagates.
Returns the attempts made together with the result. -/
def requestWithFallback (v f : HttpOutcome) :
    List AttemptKind × Except String (Nat × List Nat) :=
  match v with
  | .response s t => ([.verified], .ok (s, t))
  | .exn _ =>
    match f with
    | .response s t => ([.verified, .insecure], .ok (s, t))
    | .exn e2 => ([.verified, .insecure], .error e2)

/-- The library call `requests.Response.raise_for_status` raises exactly
for 4xx/5xx status codes. -/
def raise_for_status_raises (status : Nat) : Bool :=
  decide (400 ≤ status ∧ status < 600)

/-- Result dict of `check_website`: `{'success': True, ...}` on lines
75–80 or `{'success': False, 'error': ...}` on line 83. -/
inductive PollResult where
  | ok (is_full : Bool) (is_open : Bool) (page_text : List Nat)
  | err (error : String)
deriving DecidableEq, Repr

/-- Lines 65–80 of `check_website` after a response was obtained:
`raise_for_status` (its `HTTPError` is caught by the outer `try` of
line 54, giving a failure result), then extraction. -/
def processResponse (status : Nat) (text : List Nat) : PollResult :=
  if raise_for_status_raises status then
    PollResult.err "HTTPError"
  else
    let e := extractC text
    PollResult.ok e.is_full e.is_open e.snippet

/-- Embeds `check_website` (lines 52–83), instrumented with the list of
request attempts it makes.  `v` and `f` are the outcomes of the verified
and the fallback `requests.get`; an exception escaping both attempts is
caught by the outer `try` and becomes a failure result. -/
def check_website (v f : HttpOutcome) : List AttemptKind × PollResult :=
  match requestWithFallback v f with
  | (as, .ok (s, t)) => (as, processResponse s t)
  | (as, .error e) => (as, PollResult.err e)

/-- Embeds `send_discord_alert` (lines 25–50), instrumented with the list
of request attempts.  `message` is the alert text posted as
`content` of the JSON payload; `v` and `f` are the outcomes of the
verified and the fallback `requests.post`.  Returns `true` exactly on
HTTP 204; every other status, and an exception escaping both attempts
(caught by the outer `try` of line 27), returns `false`. -/
def send_discord_alert (message : String) (v f : HttpOutcome) :
    List AttemptKind × Bool :=
  let _content := message
  match requestWithFallback v f with
  | (as, .ok (s, _)) => (as, s == 204)
  | (as, .error _) => (as, false)

/-- The two derived statuses: line 126, `'FULL' if result['is_full'] else
'OPEN'`.  The unset `previous_status = None` (UNKNOWN) is `Option.none`. -/
inductive Status where
  | FULL
  | OPEN
deriving DecidableEq, Repr

/-- Line 126: the status derived from a successful poll. -/
def derivedStatus (is_full : Bool) : Status :=
  if is_full then Status.FULL else Status.OPEN

/-- The monitor's loop state: `previous_status` (line 116, `None` before
any successful poll) and `check_count` (line 117). -/
structure MonitorState where
  previous_status : Option Status
  check_count : Nat
deriving DecidableEq, Repr

/-- Which transition alert the loop sends (lines 130–147); the message
text differs only by timestamp. -/
inductive Alert where
  | fullToOpen
  | backToFull
deriving DecidableEq, Repr

/-- One iteration of the `while True` loop (lines 119–155): increment
`check_count`, poll, and on success compare with `previous_status` and
update it; on failure only log.  Returns the new state and the alert
sent, if any. -/
def cycle (st : MonitorState) (r : PollResult) : MonitorState × Option Alert :=
  let count := st.check_count + 1
  match r with
  | .ok is_full _ _ =>
    let current := derivedStatus is_full
    let alert : Option Alert :=
      if st.previous_status = some Status.FULL ∧ is_full = false then
        some Alert.fullToOpen
      else if st.previous_status = some Status.OPEN ∧ is_full = true then
        some Alert.backToFull
      else
        none
    (⟨some current, count⟩, alert)
  | .err _ => (⟨st.previous_status, count⟩, none)

/-- Iterated loop cycles over a list of poll results, collecting the
alerts sent in order. -/
def runCycles (st : MonitorState) (rs : List PollResult) :
    MonitorState × List Alert :=
  match rs with
  | [] => (st, [])
  | r :: rest =>
    let p := cycle st r
    let q := runCycles p.1 rest
    (q.1, p.2.toList ++ q.2)

/-- The fixed startup notice of line 107. -/
def activeMessage : String :=
  "🤖 AMP Monitor is now active! Checking every 15 minutes for admission changes..."

/-- Lines 94–117 of `main`, before the loop: the diagnostic poll
`test_result` is only printed (lines 97–103), the fixed notice is sent
unconditionally (line 107, its delivery result only printed), and the
loop state is initialised to `previous_status = None`, `check_count = 0`
(lines 116–117).  Returns the state entering the loop and the list of
notification messages sent during startup. -/
def mainStartup (test_result : PollResult) : MonitorState × List String :=
  let _ := test_result
  (⟨none, 0⟩, [activeMessage])

/-! ### Helper lemmas about substring containment and upper-casing -/

/-- Spec-side notion: the keyword `pat` occurs in `page` ignoring case,
i.e. some contiguous run of `page` upper-cases to the code points of
`pat`. -/
def occursIgnoringCase (pat : String) (page : List Nat) : Prop :=
  ∃ s l u, page = s ++ l ++ u ∧ l.map upperCode = codes pat

theorem startsWithC_iff (t p : List Nat) :
    startsWithC t p = true ↔ ∃ u, t = p ++ u := by
  induction p generalizing t with
  | nil => simp [startsWithC]
  | cons b bs ih =>
    cases t with
    | nil => simp [startsWithC]
    | cons a as =>
      simp only [startsWithC, Bool.and_eq_true, beq_iff_eq, ih,
        List.cons_append, List.cons.injEq]
      constructor
      · rintro ⟨hab, u, hu⟩
        exact ⟨u, hab, hu⟩
      · rintro ⟨u, hab, hu⟩
        exact ⟨hab, u, hu⟩

theorem containsC_iff (t p : List Nat) :
    containsC t p = true ↔ ∃ s u, t = s ++ p ++ u := by
  induction t with
  | nil =>
    simp only [containsC, startsWithC_iff]
    constructor
    · rintro ⟨u, hu⟩
      exact ⟨[], u, by simpa using hu⟩
    · rintro ⟨s, u, hu⟩
      cases s with
      | nil => exact ⟨u, by simpa using hu⟩
      | cons x xs => simp at hu
  | cons a as ih =>
    simp only [containsC, Bool.or_eq_true, startsWithC_iff, ih]
    constructor
    · rintro (⟨u, hu⟩ | ⟨s, u, hu⟩)
      · exact ⟨[], u, by simpa using hu⟩
      · exact ⟨a :: s, u, by simp [hu]⟩
    · rintro ⟨s, u, hu⟩
      cases s with
      | nil => exact Or.inl ⟨u, by simpa using hu⟩
      | cons x xs =>
        simp only [List.cons_append, List.cons.injEq] at hu
        exact Or.inr ⟨xs, u, hu.2⟩

theorem contains_upper_iff (page : List Nat) (pat : String) :
    containsC (page.map upperCode) (codes pat) = true
      ↔ occursIgnoringCase pat page := by
  rw [containsC_iff]
  constructor
  · rintro ⟨s, u, hu⟩
    rw [List.map_eq_append_iff] at hu
    obtain ⟨l1, l2, hpage, h1, h2⟩ := hu
    rw [List.map_eq_append_iff] at h1
    obtain ⟨l11, l12, hl1, h11, h12⟩ := h1
    refine ⟨l11, l12, l2, ?_, h12⟩
    rw [hpage, hl1]
  · rintro ⟨s, l, u, hpage, hl⟩
    refine ⟨s.map upperCode, u.map upperCode, ?_⟩
    rw [hpage]
    simp [hl]

theorem upperCode_idem (n : Nat) : upperCode (upperCode n) = upperCode n := by
  by_cases h : 97 ≤ n ∧ n ≤ 122
  · have h1 : upperCode n = n - 32 := if_pos h
    rw [h1]
    exact if_neg (by omega)
  · have h1 : upperCode n = n := if_neg h
    rw [h1]
    exact h1

theorem map_upperCode_idem (l : List Nat) :
    (l.map upperCode).map upperCode = l.map upperCode := by
  have h : upperCode ∘ upperCode = upperCode := funext upperCode_idem
  rw [List.map_map, h]

/-! ### Helper lemmas about the monitoring loop -/

theorem cycle_err (st : MonitorState) (e : String) :
    cycle st (PollResult.err e)
      = (⟨st.previous_status, st.check_count + 1⟩, none) := rfl

theorem runCycles_cons (st : MonitorState) (r : PollResult)
    (rest : List PollResult) :
    runCycles st (r :: rest)
      = ((runCycles (cycle st r).1 rest).1,
          (cycle st r).2.toList ++ (runCycles (cycle st r).1 rest).2) := rfl

theorem runCycles_append (xs ys : List PollResult) (st : MonitorState) :
    runCycles st (xs ++ ys)
      = ((runCycles (runCycles st xs).1 ys).1,
          (runCycles st xs).2 ++ (runCycles (runCycles st xs).1 ys).2) := by
  induction xs generalizing st with
  | nil => simp [runCycles]
  | cons x xs ih => simp [runCycles, ih, List.append_assoc]

theorem runCycles_replicate_err (k : Nat) (st : MonitorState) (e : String) :
    runCycles st (List.replicate k (PollResult.err e))
      = (⟨st.previous_status, st.check_count + k⟩, []) := by
  induction k generalizing st with
  | zero => simp [runCycles]
  | succ n ih =>
    rw [List.replicate_succ, runCycles_cons, cycle_err, ih]
    simp
    omega

/-! ### Claim theorems -/

/-- C1: in every loop cycle, a transition alert is sent if and only if the
poll succeeded, `previous_status` is set (not the initial `None`), and the
newly derived status (`FULL` if `is_full` else `OPEN`) differs from
`previous_status`. -/
theorem c1_transition_alert_iff (st : MonitorState) (r : PollResult) :
    ((cycle st r).2).isSome = true ↔
      ∃ is_full is_open t, r = PollResult.ok is_full is_open t
        ∧ st.previous_status ≠ none
        ∧ st.previous_status ≠ some (derivedStatus is_full) := by
  obtain ⟨prev, cnt⟩ := st
  cases r with
  | err e => simp [cycle]
  | ok f o t =>
    cases prev with
    | none => cases f <;> simp [cycle, derivedStatus]
    | some s => cases s <;> cases f <;> simp [cycle, derivedStatus]

/-- C2: the extractor reports `is_full` exactly when the page text
contains "FULL" ignoring case, `is_open` exactly when it contains one of
"OPEN", "AVAILABLE", "ACCEPTING" ignoring case, and a page text and its
upper-cased form yield identical extraction results. -/
theorem c2_extractor_keywords (page : List Nat) :
    ((extractC page).is_full = true ↔ occursIgnoringCase "FULL" page)
    ∧ ((extractC page).is_open = true ↔
        (occursIgnoringCase "OPEN" page ∨ occursIgnoringCase "AVAILABLE" page
          ∨ occursIgnoringCase "ACCEPTING" page))
    ∧ extractC (page.map upperCode) = extractC page := by
  refine ⟨?_, ?_, ?_⟩
  · simpa [extractC] using contains_upper_iff page "FULL"
  · simp only [extractC, Bool.or_eq_true]
    rw [contains_upper_iff page "OPEN", contains_upper_iff page "AVAILABLE",
      contains_upper_iff page "ACCEPTING", or_assoc]
  · simp only [extractC, map_upperCode_idem]

/-- C3: for every message, `send_discord_alert` returns `true` exactly
when the post that produced a response came back with HTTP status 204;
any other status, or an exception on both the verified and the fallback
attempt, yields `false` (the embedding is a total function: no exception
reaches the caller). -/
theorem c3_notify_true_iff_204 (message : String) (v f : HttpOutcome) :
    (send_discord_alert message v f).2 = true ↔
      ((∃ t, v = HttpOutcome.response 204 t)
        ∨ ∃ e t, v = HttpOutcome.exn e ∧ f = HttpOutcome.response 204 t) := by
  cases v with
  | response s t => simp [send_discord_alert, requestWithFallback]
  | exn e => cases f <;> simp [send_discord_alert, requestWithFallback]

/-- C4: a cycle with a failed poll leaves `previous_status` unchanged and
sends no alert; and after a successful FULL observation, any number of
failed polls followed by a successful non-FULL poll still produces exactly
one FULL-to-OPEN alert for the later observation. -/
theorem c4_failed_polls_preserve_transition (st : MonitorState) (e : String)
    (k : Nat) (o1 o2 : Bool) (t1 t2 : List Nat) :
    ((cycle st (PollResult.err e)).1.previous_status = st.previous_status
      ∧ (cycle st (PollResult.err e)).2 = none)
    ∧ (runCycles st (PollResult.ok true o1 t1
          :: (List.replicate k (PollResult.err e)
              ++ [PollResult.ok false o2 t2]))).2
        = (cycle st (PollResult.ok true o1 t1)).2.toList
            ++ [Alert.fullToOpen] := by
  refine ⟨⟨rfl, rfl⟩, ?_⟩
  have h1 : (cycle st (PollResult.ok true o1 t1)).1
      = (⟨some Status.FULL, st.check_count + 1⟩ : MonitorState) := rfl
  have hrest : runCycles (⟨some Status.FULL, st.check_count + 1⟩ : MonitorState)
      (List.replicate k (PollResult.err e) ++ [PollResult.ok false o2 t2])
      = (⟨some Status.OPEN, st.check_count + 1 + k + 1⟩, [Alert.fullToOpen]) := by
    rw [runCycles_append, runCycles_replicate_err]
    simp [runCycles, runCycles_cons, cycle, derivedStatus]
  rw [runCycles_cons, h1, hrest]

/-- C5 counterexample: on a cycle whose poll fails the `MonitorState` is
NOT unchanged — `check_count` is incremented (line 120 runs before the
success test). -/
theorem c5_counterexample :
    (cycle ⟨none, 0⟩ (PollResult.err "boom")).1 ≠ (⟨none, 0⟩ : MonitorState) := by
  decide

/-- C5 (amended): `check_count` is incremented exactly once per cycle
regardless of the poll outcome, while `previous_status` is set to the
derived status exactly on a successful poll and left unchanged on a
failed poll. -/
theorem c5_state_mutation (st : MonitorState) (r : PollResult) :
    (cycle st r).1.check_count = st.check_count + 1
    ∧ (cycle st r).1.previous_status
        = (match r with
            | PollResult.ok is_full _ _ => some (derivedStatus is_full)
            | PollResult.err _ => st.previous_status) := by
  cases r <;> exact ⟨rfl, rfl⟩

/-- C6 counterexample: a successful diagnostic poll deriving FULL does
NOT seed `previous_status` — the loop is entered with `previous_status =
None` (line 116 assigns `None` after the diagnostic poll). -/
theorem c6_counterexample :
    derivedStatus true = Status.FULL
    ∧ (mainStartup (PollResult.ok true false [])).1.previous_status
        ≠ some Status.FULL := by
  decide

/-- C6 (amended): the startup diagnostic poll is only logged and does not
seed the transition logic; whatever its outcome, the loop is entered with
`previous_status = None` and `check_count = 0`. -/
theorem c6_startup_state (test_result : PollResult) :
    (mainStartup test_result).1
      = ({ previous_status := none, check_count := 0 } : MonitorState) := rfl

/-- C7 counterexample: a non-2xx status need not fail the poll —
`raise_for_status` does not raise on 304, so a 304 response is processed
as a successful poll. -/
theorem c7_counterexample :
    ¬ (200 ≤ 304 ∧ 304 < 300)
    ∧ (check_website (HttpOutcome.response 304 (codes "neither"))
        (HttpOutcome.exn "unused")).2
      = PollResult.ok false false (codes "NEITHER") := by
  decide

/-- C7 (amended): when the fetch obtains a response with a 4xx or 5xx
status — the statuses for which `raise_for_status` raises — the poll
fails, and the fallback attempt is not issued in response to any returned
status (the result does not depend on the fallback outcome). -/
theorem c7_error_status_fails (s : Nat) (t : List Nat) (f f' : HttpOutcome)
    (h4 : 400 ≤ s) (h6 : s < 600) :
    (check_website (HttpOutcome.response s t) f).2 = PollResult.err "HTTPError"
    ∧ check_website (HttpOutcome.response s t) f
      = check_website (HttpOutcome.response s t) f' := by
  constructor
  · simp [check_website, requestWithFallback, processResponse,
      raise_for_status_raises, h4, h6]
  · rfl

/-- Witness for C7 (amended) at status 404. -/
theorem c7_error_status_fails_witness :
    (400 ≤ 404 ∧ 404 < 600)
    ∧ ((check_website (HttpOutcome.response 404 []) (HttpOutcome.exn "a")).2
        = PollResult.err "HTTPError"
      ∧ check_website (HttpOutcome.response 404 []) (HttpOutcome.exn "a")
        = check_website (HttpOutcome.response 404 [])
            (HttpOutcome.response 204 [])) :=
  ⟨by decide,
    c7_error_status_fails 404 [] (HttpOutcome.exn "a")
      (HttpOutcome.response 204 []) (by decide) (by decide)⟩

/-- C8: the first successful poll ever — preceded by any number of failed
polls — emits no transition alert, and startup sends exactly the fixed
"monitor active" notice whatever the diagnostic poll returned. -/
theorem c8_first_success_no_alert (test_result : PollResult) (k : Nat)
    (e : String) (is_full is_open : Bool) (t : List Nat) :
    (mainStartup test_result).2 = [activeMessage]
    ∧ (runCycles (mainStartup test_result).1
        (List.replicate k (PollResult.err e)
          ++ [PollResult.ok is_full is_open t])).2 = [] := by
  refine ⟨rfl, ?_⟩
  rw [show (mainStartup test_result).1 = (⟨none, 0⟩ : MonitorState) from rfl,
    runCycles_append, runCycles_replicate_err]
  simp [runCycles, runCycles_cons, cycle]

/-- C9: a call to the fetch makes the verify-disabled fallback attempt
exactly once when the verified attempt raised, and makes no attempt
beyond it; when the verified attempt returned a response, no fallback
attempt is made at all. -/
theorem c9_exactly_one_fallback (f : HttpOutcome) :
    (∀ e, (check_website (HttpOutcome.exn e) f).1
        = [AttemptKind.verified, AttemptKind.insecure])
    ∧ ∀ s t, (check_website (HttpOutcome.response s t) f).1
        = [AttemptKind.verified] := by
  refine ⟨fun e => ?_, fun s t => rfl⟩
  cases f <;> rfl

/-- C10: in both the fetch and the notifier the fallback attempt is
issued for every exception raised by the verified attempt, whatever its
kind (the bare `except:` catches everything). -/
theorem c10_fallback_on_any_exception (e : String) (message : String)
    (f : HttpOutcome) :
    (check_website (HttpOutcome.exn e) f).1
        = [AttemptKind.verified, AttemptKind.insecure]
    ∧ (send_discord_alert message (HttpOutcome.exn e) f).1
        = [AttemptKind.verified, AttemptKind.insecure] := by
  cases f <;> exact ⟨rfl, rfl⟩

end AmpMonitor
